import Mathlib

/-!
# Verification of the checkpoint-loading pipeline of `simplest-stable`

Shallow embedding of `src/loading.py` (the only source file): the schema
detection heuristic, hyperparameter (prediction target / resolution)
resolution, scheduler construction, VAE source selection, text-encoder
family dispatch, the `prepare_pipe` routing logic, and the attention
options applied to the returned pipeline.

Components that live in files of the repository outside the provided
source (`src/scripts/convert_from_ckpt.py`, the two YAML config files,
and the diffusers `save_pretrained`/`from_pretrained` cache) are modelled
from the specification; each such definition carries a doc comment
starting `Modelled from the spec:`.
-/

namespace SimplestStable

/-- A tensor, abstracted to its shape and flat integer data.  The loader
only ever inspects `shape[-1]` of one tensor and moves tensors around
whole, so this carries everything the claims need. -/
structure Tensor where
  shape : List Nat
  data : List Int
  deriving Repr, DecidableEq

/-- A flat state dict: an association list from dot-delimited key to tensor
(Python dict, insertion-ordered). -/
abbrev StateDict := List (String × Tensor)

/-- A raw checkpoint after the `state_dict` unwrapping of
`load_ckpt_or_safetensors_file_and_cache_as_diffusers` (line 186):
the flat tensor mapping plus the optional `global_step` training metadata
read from the outer mapping (line 185). -/
structure RawCheckpoint where
  global_step : Option Int
  tensors : StateDict
  deriving Repr, DecidableEq

/-- Lookup of `checkpoint[key]` on the state dict. -/
def RawCheckpoint.find (c : RawCheckpoint) (k : String) : Option Tensor :=
  c.tensors.lookup k

/-- The architecture-distinguishing tensor key tested at line 192. -/
def keyName : String :=
  "model.diffusion_model.input_blocks.2.1.transformer_blocks.0.attn2.to_k.weight"

/-- Path of the wide-family (SD2, v-prediction) config, line 195. -/
def v2ConfigPath : String := "src/scripts/v2-inference-v.yaml"

/-- Path of the narrow-family (SD1) config, line 199. -/
def v1ConfigPath : String := "src/scripts/v1-inference.yaml"

/-- Test of line 194, `checkpoint[key_name].shape[-1] == 1024`: the tensor
is present and the trailing dimension of its shape is 1024. -/
def hasWideKey (c : RawCheckpoint) : Bool :=
  match c.find keyName with
  | some t => t.shape.getLast? == some 1024
  | none => false

/-- Lines 187-199: starting from an optional explicit config reference,
pick the config file path and the `upcast_attention` flag.  When an
explicit path is supplied detection is skipped entirely; otherwise the
distinguishing key picks between the two bundled configs, and within the
wide family `global_step == 110000` sets `upcast_attention`. -/
def detectConfigPath (c : RawCheckpoint) (configFilePath : Option String) :
    String × Bool :=
  match configFilePath with
  | some p => (p, false)
  | none =>
    if hasWideKey c then
      (v2ConfigPath, c.global_step == some 110000)
    else
      (v1ConfigPath, false)

/-- The fields of the OmegaConf document the loader reads:
`model.params.parameterization` (optional), `model.params.timesteps`,
`model.params.linear_start`, `model.params.linear_end`, and
`model.params.cond_stage_config.target`. -/
structure OriginalConfig where
  parameterization : Option String
  timesteps : Nat
  linear_start : Rat
  linear_end : Rat
  cond_stage_target : String
  deriving Repr, DecidableEq

/-- Modelled from the spec: the file `src/scripts/v1-inference.yaml` is not
under the provided source.  Per the spec it is the narrow-family config: no
velocity parameterization (so the loader's `parameterization == "v"` test is
false) and the CLIP text-encoder family class `FrozenCLIPEmbedder`.  The
numeric regime fields (timesteps, variance bounds) are representative
constants; no claim depends on their values. -/
def v1Config : OriginalConfig :=
  { parameterization := none
    timesteps := 1000
    linear_start := 85 / 100000
    linear_end := 12 / 1000
    cond_stage_target := "ldm.modules.encoders.modules.FrozenCLIPEmbedder" }

/-- Modelled from the spec: the file `src/scripts/v2-inference-v.yaml` is
not under the provided source.  Per the spec it is the wide-family config:
velocity parameterization (`parameterization: v`) and the open-vocabulary
CLIP text-encoder family class `FrozenOpenCLIPEmbedder`.  The numeric
regime fields are representative constants; no claim depends on them. -/
def v2Config : OriginalConfig :=
  { parameterization := some "v"
    timesteps := 1000
    linear_start := 85 / 100000
    linear_end := 12 / 1000
    cond_stage_target := "ldm.modules.encoders.modules.FrozenOpenCLIPEmbedder" }

/-- Modelled from the spec: `OmegaConf.load` on the two bundled config
paths yields the two family configs; any other path is outside the
repository and unmodelled. -/
def loadConfig (path : String) : Option OriginalConfig :=
  if path = v1ConfigPath then some v1Config
  else if path = v2ConfigPath then some v2Config
  else none

/-- Lines 202-218: resolve the prediction target and image size.  In the
velocity-parameterized (wide) family, an unset prediction type becomes
`epsilon` when `global_step == 875000` (the base release) and
`v_prediction` otherwise, and an unset image size becomes 512 or 768 by
the same test; outside that family the unset values become `epsilon` and
512.  In the source both values have been reassigned to `None` at lines
188-189, so the `is None` guards always fire. -/
def resolveRegimeFull (cfg : OriginalConfig) (globalStep : Option Int)
    (predictionType : Option String) (imageSize : Option Nat) :
    String × Nat :=
  if cfg.parameterization = some "v" then
    (predictionType.getD
       (if globalStep = some 875000 then "epsilon" else "v_prediction"),
     imageSize.getD (if globalStep = some 875000 then 512 else 768))
  else
    (predictionType.getD "epsilon", imageSize.getD 512)

/-- The regime resolution as the loader actually runs it, with both
optional values already reassigned to `None`. -/
def resolveRegime (cfg : OriginalConfig) (globalStep : Option Int) :
    String × Nat :=
  resolveRegimeFull cfg globalStep none none

/-- The detection-plus-resolution front half of
`load_ckpt_or_safetensors_file_and_cache_as_diffusers` (lines 185-218):
from checkpoint and optional explicit config reference to
(config path, loaded config, prediction type, image size, upcast flag). -/
def detectAndResolve (c : RawCheckpoint) (configFilePath : Option String) :
    Option (String × OriginalConfig × String × Nat × Bool) :=
  let (path, upcast) := detectConfigPath c configFilePath
  match loadConfig path with
  | none => none
  | some cfg =>
    let (pt, sz) := resolveRegime cfg c.global_step
    some (path, cfg, pt, sz, upcast)

/-- The arguments passed to the `DDIMScheduler` constructor at
lines 224-233. -/
structure DDIMSchedulerArgs where
  beta_start : Rat
  beta_end : Rat
  beta_schedule : String
  num_train_timesteps : Nat
  steps_offset : Nat
  clip_sample : Bool
  set_alpha_to_one : Bool
  prediction_type : String
  deriving Repr, DecidableEq

/-- Lines 220-233: the scheduler is built from the loaded config's
`timesteps`, `linear_start` and `linear_end` fields and the resolved
prediction type; every other argument is a literal constant. -/
def mkScheduler (cfg : OriginalConfig) (predictionType : String) :
    DDIMSchedulerArgs :=
  { beta_end := cfg.linear_end
    beta_schedule := "scaled_linear"
    beta_start := cfg.linear_start
    num_train_timesteps := cfg.timesteps
    steps_offset := 1
    clip_sample := false
    set_alpha_to_one := false
    prediction_type := predictionType }

/-- Failure modes of the loader.  `keyError`, `sourceNotFound` and
`unboundLocalPipe` are failures the Python code actually raises (dict
subscript on a missing key; the `raise ValueError` at line 60, which the
spec's taxonomy names `SourceNotFound`; and reference to the
never-assigned local `pipe` after lines 264-297 fall through both family
branches).  `incompleteStateMapping` is the spec's name (§4.3/§8) for
the remap-completeness hard stop — a required target key that never
receives a source value — which the conversion code raises as a
missing-key failure inside the converters; it names the sub-model and
the missing key.  `configResolutionError` and
`unsupportedTextEncoderFamily` are the spec's taxonomy names with no
counterpart raise in the code; they exist here so the corresponding
claims can be stated. -/
inductive LoadError where
  | keyError (key : String)
  | sourceNotFound (name : String)
  | unboundLocalPipe
  | incompleteStateMapping (subModel : String) (missingKey : String)
  | configResolutionError
  | unsupportedTextEncoderFamily
  deriving Repr, DecidableEq

/-- Structural sub-model configuration, as produced by
`create_unet_diffusers_config` / `create_vae_diffusers_config`
(external to the provided source): the claims only depend on the sample
resolution and the upcast flag set at line 237. -/
structure ArchitectureConfig where
  sample_size : Nat
  upcast_attention : Bool
  deriving Repr, DecidableEq

/-- Modelled from the spec: `create_unet_diffusers_config` of
`src/scripts/convert_from_ckpt.py` is not under the provided source.  Per
§4.2 the structural values are read verbatim from the declared config
source with the sample resolution from §4.1's resolution selection. -/
def create_unet_diffusers_config (_cfg : OriginalConfig) (imageSize : Nat) :
    ArchitectureConfig :=
  { sample_size := imageSize, upcast_attention := false }

/-- Modelled from the spec: `create_vae_diffusers_config` of
`src/scripts/convert_from_ckpt.py` is not under the provided source. -/
def create_vae_diffusers_config (_cfg : OriginalConfig) (imageSize : Nat) :
    ArchitectureConfig :=
  { sample_size := imageSize, upcast_attention := false }

/-- Structural test that one character list is an initial segment of
another (the semantics of Python's `str.startswith`). -/
def charListIsInit : List Char → List Char → Bool
  | [], _ => true
  | _ :: _, [] => false
  | a :: as, b :: bs => a == b && charListIsInit as bs

/-- String head test, character-wise. -/
def strStartsWith (s head : String) : Bool :=
  charListIsInit head.data s.data

/-- Drop the first `n` characters of a string. -/
def strDropChars (s : String) (n : Nat) : String :=
  String.mk (s.data.drop n)

/-- Take the first `n` characters of a string (Python `s[0:n]`). -/
def strTakeChars (s : String) (n : Nat) : String :=
  String.mk (s.data.take n)

/-- Split a character list on a separator character (the semantics of
Python's `str.split` with a one-character separator). -/
def splitOnChar (c : Char) : List Char → List (List Char)
  | [] => [[]]
  | x :: xs =>
    let r := splitOnChar c xs
    if x == c then [] :: r
    else
      match r with
      | g :: gs => (x :: g) :: gs
      | [] => [[x]]

/-- Keys of `state` that start with the given sub-model key head. -/
def keysWith (head : String) (state : StateDict) : StateDict :=
  state.filter fun kv => strStartsWith kv.1 head

/-- Partition by a sub-model key head, then strip it from each key. -/
def stripHead (head : String) (state : StateDict) : StateDict :=
  (keysWith head state).map fun kv => (strDropChars kv.1 head.length, kv.2)

/-- Apply a deterministic rename rule drawn from a fixed rule table; keys
with no matching rule are dropped, and no source key is consumed twice. -/
def renameWithTable (table : List (String × String)) (state : StateDict) :
    StateDict :=
  state.filterMap fun kv => (table.lookup kv.1).map fun tgt => (tgt, kv.2)

/-- The remap-completeness hard stop of §4.3: a required target key that
never received a source value after remapping fails with
`IncompleteStateMapping` naming the sub-model and the missing key; a
complete state passes through unchanged (all-or-nothing, never a partial
state). -/
def checkComplete (subModel : String) (required : List String)
    (state : StateDict) : Except LoadError StateDict :=
  match required.find? fun k => (state.lookup k).isNone with
  | some missing => .error (.incompleteStateMapping subModel missing)
  | none => .ok state

/-- Modelled from the spec: a representative fragment of the fixed
denoiser rule table of `convert_ldm_unet_checkpoint` (not under the
provided source).  Per §4.3, numbered block keys map to named layer-group
keys by a fixed deterministic table. -/
def unetRenameTable : List (String × String) :=
  [("time_embed.0.weight", "time_embedding.linear_1.weight"),
   ("time_embed.0.bias", "time_embedding.linear_1.bias"),
   ("time_embed.2.weight", "time_embedding.linear_2.weight"),
   ("time_embed.2.bias", "time_embedding.linear_2.bias"),
   ("input_blocks.0.0.weight", "conv_in.weight"),
   ("input_blocks.0.0.bias", "conv_in.bias"),
   ("out.0.weight", "conv_norm_out.weight"),
   ("out.0.bias", "conv_norm_out.bias"),
   ("out.2.weight", "conv_out.weight"),
   ("out.2.bias", "conv_out.bias")]

/-- Modelled from the spec: the target keys the denoiser structure
requires (the targets of the rule-table fragment); representative. -/
def unetRequiredKeys : List String := unetRenameTable.map Prod.snd

/-- Modelled from the spec: `convert_ldm_unet_checkpoint` of
`src/scripts/convert_from_ckpt.py` is not under the provided source.  Per
§4.3: partition the raw keys by the denoiser key head
`model.diffusion_model.`, rename each matched key by the fixed rule
table, drop keys with no rule; a required target key left unfilled is
the `IncompleteStateMapping` hard stop of §4.3/§8 (the conversion code
raises a missing-key failure there, never yielding a partial state). -/
def convert_ldm_unet_checkpoint (state : StateDict)
    (_cfg : ArchitectureConfig) : Except LoadError StateDict :=
  checkComplete "denoiser" unetRequiredKeys
    (renameWithTable unetRenameTable
      (stripHead "model.diffusion_model." state))

/-- Modelled from the spec: the image-codec keys that require a spatial
reshape (attention tensors embedded in an otherwise convolutional
network), per §4.3; representative fragment. -/
def vaeAttentionKeys : List String :=
  ["encoder.mid.attn_1.q.weight", "encoder.mid.attn_1.k.weight",
   "encoder.mid.attn_1.v.weight", "encoder.mid.attn_1.proj_out.weight",
   "decoder.mid.attn_1.q.weight", "decoder.mid.attn_1.k.weight",
   "decoder.mid.attn_1.v.weight", "decoder.mid.attn_1.proj_out.weight"]

/-- Modelled from the spec: the spatial reshape applied to image-codec
attention tensors (drop the trailing spatial dimensions), per §4.3. -/
def reshapeAttentionTensor (t : Tensor) : Tensor :=
  { shape := t.shape.take 2, data := t.data }

/-- Modelled from the spec: the shared image-codec remapping core of
`convert_ldm_vae_checkpoint` / `convert_ldm_vae_checkpoint_from_file`
(not under the provided source).  Per §4.3 most tensors are a direct
pass-through; the attention tensors get a deterministic reshape. -/
def vaeRemapCore (state : StateDict) (_cfg : ArchitectureConfig) :
    StateDict :=
  state.map fun kv =>
    if kv.1 ∈ vaeAttentionKeys then (kv.1, reshapeAttentionTensor kv.2)
    else kv

/-- Modelled from the spec: the target keys the image-codec structure
requires; representative. -/
def vaeRequiredKeys : List String :=
  ["encoder.conv_in.weight", "decoder.conv_in.weight"]

/-- Modelled from the spec: `convert_ldm_vae_checkpoint` (not under the
provided source) remaps the image-codec portion of the primary
checkpoint, partitioned by the `first_stage_model.` key head; a required
target key left unfilled is the `IncompleteStateMapping` hard stop of
§4.3/§8. -/
def convert_ldm_vae_checkpoint (state : StateDict)
    (cfg : ArchitectureConfig) : Except LoadError StateDict :=
  checkComplete "image-codec" vaeRequiredKeys
    (vaeRemapCore (stripHead "first_stage_model." state) cfg)

/-- Modelled from the spec: `convert_ldm_vae_checkpoint_from_file` (not
under the provided source) remaps a standalone image-codec state dict,
whose keys carry no primary-checkpoint key head, with the same
completeness hard stop. -/
def convert_ldm_vae_checkpoint_from_file (state : StateDict)
    (cfg : ArchitectureConfig) : Except LoadError StateDict :=
  checkComplete "image-codec" vaeRequiredKeys (vaeRemapCore state cfg)

/-- Modelled from the spec: the target keys the CLIP-family text-encoder
structure requires; representative. -/
def clipRequiredKeys : List String :=
  ["text_model.embeddings.token_embedding.weight"]

/-- Modelled from the spec: `convert_ldm_clip_checkpoint` (not under the
provided source) maps the CLIP-family text-encoder parameters one-to-one,
partitioned by the `cond_stage_model.transformer.` key head, with the
§4.3 completeness hard stop. -/
def convert_ldm_clip_checkpoint (state : StateDict) :
    Except LoadError StateDict :=
  checkComplete "text-encoder" clipRequiredKeys
    (stripHead "cond_stage_model.transformer." state)

/-- Modelled from the spec: the fused projection produced by combining
the split query/key/value projections by concatenation along the output
dimension, per §4.3. -/
def mergeQKV (q k v : Tensor) : Tensor :=
  { shape :=
      match q.shape with
      | d :: rest => (3 * d) :: rest
      | [] => []
    data := q.data ++ k.data ++ v.data }

/-- Modelled from the spec: a representative fragment of the distinct
naming table the open-vocabulary family uses for embedding and
normalization tensors, per §4.3. -/
def openClipRenameTable : List (String × String) :=
  [("cond_stage_model.model.token_embedding.weight",
    "text_model.embeddings.token_embedding.weight"),
   ("cond_stage_model.model.positional_embedding",
    "text_model.embeddings.position_embedding.weight"),
   ("cond_stage_model.model.ln_final.weight",
    "text_model.final_layer_norm.weight"),
   ("cond_stage_model.model.ln_final.bias",
    "text_model.final_layer_norm.bias")]

/-- Modelled from the spec: the target keys the open-vocabulary
text-encoder structure requires; representative. -/
def openClipRequiredKeys : List String :=
  ["text_model.embeddings.token_embedding.weight",
   "text_model.final_layer_norm.weight"]

/-- Modelled from the spec: `convert_open_clip_checkpoint` (not under the
provided source).  Per §4.3 the open-vocabulary family renames the
embedding/normalization tensors via its own table and merges the split
query/key/value projections of a transformer block into one fused
projection by concatenation along the output dimension, with the §4.3
completeness hard stop. -/
def convert_open_clip_checkpoint (state : StateDict) :
    Except LoadError StateDict :=
  let renamed := renameWithTable openClipRenameTable state
  let merged :=
    match state.lookup
        "cond_stage_model.model.transformer.resblocks.0.attn.q_proj.weight",
      state.lookup
        "cond_stage_model.model.transformer.resblocks.0.attn.k_proj.weight",
      state.lookup
        "cond_stage_model.model.transformer.resblocks.0.attn.v_proj.weight" with
    | some q, some k, some v =>
      ("text_model.encoder.layers.0.self_attn.in_proj.weight",
        mergeQKV q k v) :: renamed
    | _, _, _ => renamed
  checkComplete "text-encoder" openClipRequiredKeys merged

/-- The two text-encoder families supported by the source
(lines 264 and 280). -/
inductive TextEncoderFamily where
  | clip
  | openClip
  deriving Repr, DecidableEq

/-- A schema variant per §3 of the spec: text-encoder family plus the
numeric-regime sub-tags. -/
structure SchemaVariant where
  family : TextEncoderFamily
  velocity : Bool
  baseResolution : Nat
  deriving Repr, DecidableEq

/-- The three structured state mappings produced by remapping (§3). -/
structure RemappedState where
  denoiser : StateDict
  imageCodec : StateDict
  textEncoder : StateDict
  deriving Repr, DecidableEq

/-- The CheckpointRemapper of §4.3: produce the three remapped
sub-model states from the raw checkpoint, the three architecture
configs, and the schema variant's family tag; any sub-model whose
required keys are unfilled is the `IncompleteStateMapping` hard stop (no
partial RemappedState is ever produced). -/
def checkpointRemapper (ckpt : RawCheckpoint)
    (unetCfg vaeCfg _textCfg : ArchitectureConfig)
    (variant : SchemaVariant) : Except LoadError RemappedState :=
  match convert_ldm_unet_checkpoint ckpt.tensors unetCfg with
  | .error e => .error e
  | .ok d =>
    match convert_ldm_vae_checkpoint ckpt.tensors vaeCfg with
    | .error e => .error e
    | .ok ic =>
      match
        (match variant.family with
         | .clip => convert_ldm_clip_checkpoint ckpt.tensors
         | .openClip => convert_open_clip_checkpoint ckpt.tensors) with
      | .error e => .error e
      | .ok te =>
        .ok { denoiser := d, imageCodec := ic, textEncoder := te }

/-- Lines 250-251: the filter applied to the separately-sourced VAE
file's state dict — drop keys starting with `loss` and the two
`model_ema` bookkeeping keys. -/
def vaeFilter (d : StateDict) : StateDict :=
  d.filter fun kv =>
    !(strTakeChars kv.1 4 == "loss") && !(kv.1 == "model_ema.decay") &&
      !(kv.1 == "model_ema.num_updates")

/-- Lines 248-256: image-codec state source selection.  When a separate
VAE file is supplied, its (filtered) state dict is remapped on its own;
otherwise the image-codec state is remapped from the primary
checkpoint. -/
def selectVaeState (ckpt : RawCheckpoint) (vaeFile : Option StateDict)
    (vaeCfg : ArchitectureConfig) : Except LoadError StateDict :=
  match vaeFile with
  | some vf => convert_ldm_vae_checkpoint_from_file (vaeFilter vf) vaeCfg
  | none => convert_ldm_vae_checkpoint ckpt.tensors vaeCfg

/-- The assembled pipeline, abstracted to the data the claims inspect:
the three loaded sub-model states, the scheduler arguments, the tokenizer
source, and whether a feature extractor was attached (the two family
branches at lines 270-279 and 288-297 differ in exactly these). -/
structure Pipe where
  unet_state : StateDict
  vae_state : StateDict
  text_state : StateDict
  scheduler : DDIMSchedulerArgs
  tokenizer : String
  has_feature_extractor : Bool
  deriving Repr, DecidableEq

/-- Line 261-262: the text-encoder family class name is the last
dot-component of the config's `cond_stage_config.target`. -/
def modelTypeOf (cfg : OriginalConfig) : String :=
  String.mk ((splitOnChar '.' cfg.cond_stage_target.data).getLastD [])

/-- Lines 261-297: dispatch on the text-encoder family class name.  The
`FrozenOpenCLIPEmbedder` branch converts via the open-vocabulary rules
and uses the SD2 tokenizer with no feature extractor; the
`FrozenCLIPEmbedder` branch converts via the CLIP rules and uses the
CLIP-ViT tokenizer with a feature extractor.  Any other name assigns
`pipe` in neither branch, so the later use of `pipe` raises Python's
unbound-local error. -/
def buildPipe (cfg : OriginalConfig) (ckpt : RawCheckpoint)
    (unetState vaeState : StateDict) (sched : DDIMSchedulerArgs) :
    Except LoadError Pipe :=
  let mt := modelTypeOf cfg
  if mt = "FrozenOpenCLIPEmbedder" then
    match convert_open_clip_checkpoint ckpt.tensors with
    | .error e => .error e
    | .ok ts =>
      .ok { unet_state := unetState
            vae_state := vaeState
            text_state := ts
            scheduler := sched
            tokenizer := "stabilityai/stable-diffusion-2"
            has_feature_extractor := false }
  else if mt = "FrozenCLIPEmbedder" then
    match convert_ldm_clip_checkpoint ckpt.tensors with
    | .error e => .error e
    | .ok ts =>
      .ok { unet_state := unetState
            vae_state := vaeState
            text_state := ts
            scheduler := sched
            tokenizer := "openai/clip-vit-large-patch14"
            has_feature_extractor := true }
  else
    .error .unboundLocalPipe

/-- The body of `load_ckpt_or_safetensors_file_and_cache_as_diffusers`
(lines 185-303) after the checkpoint file has been read: detection,
regime resolution, scheduler construction, remapping, assembly.  The
`imageSize` and `predictionType` parameters mirror the Python keyword
arguments (defaults 512 and None); lines 188-189 reassign both to `None`
before any use, which the shadowing `let`s reproduce.  Remapping is
all-or-nothing (§4.3/§4.4, `load_state_dict` at lines 243/259): an
incomplete sub-model state aborts the whole load, so a partially
initialized model is never returned.  Returns the assembled pipeline and
the resolved prediction-type string. -/
def load_ckpt_full (ckpt : RawCheckpoint) (configFilePath : Option String)
    (imageSize : Option Nat) (predictionType : Option String)
    (vaeFile : Option StateDict) : Except LoadError (Pipe × String) :=
  let predictionType : Option String := none
  let imageSize : Option Nat := none
  let pu := detectConfigPath ckpt configFilePath
  match loadConfig pu.1 with
  | none => .error (.keyError pu.1)
  | some cfg =>
    let ps := resolveRegimeFull cfg ckpt.global_step predictionType imageSize
    let sched := mkScheduler cfg ps.1
    let unetCfg :=
      { create_unet_diffusers_config cfg ps.2 with upcast_attention := pu.2 }
    match convert_ldm_unet_checkpoint ckpt.tensors unetCfg with
    | .error e => .error e
    | .ok unetState =>
      let vaeCfg := create_vae_diffusers_config cfg ps.2
      match selectVaeState ckpt vaeFile vaeCfg with
      | .error e => .error e
      | .ok vaeState =>
        (buildPipe cfg ckpt unetState vaeState sched).map
          fun pipe => (pipe, ps.1)

/-- One entry of the downloadable-model dict (lines 40-48): its `type`
tag (`diffusers` or `hf-file`), keyword, and prediction string. -/
structure DownloadableEntry where
  dtype : String
  keyword : String
  prediction : String
  deriving Repr, DecidableEq

/-- One entry of the custom-model dict (lines 51-57). -/
structure CustomEntry where
  path : String
  keywords : String
  deriving Repr, DecidableEq

/-- One entry of the cached-model dict (lines 37-38). -/
structure CachedEntry where
  path : String
  deriving Repr, DecidableEq

/-- Which loader `prepare_pipe` routed the request to.  A Python dict
argument that is `None` or empty is modelled as the empty list (both are
falsy and neither contains any key). -/
inductive PipeSource where
  | cached (info : CachedEntry)
  | diffusers (name : String)
  | hfFile (name : String)
  | custom (name : String)
  deriving Repr, DecidableEq

/-- The attention options in effect on the returned pipeline. -/
structure AttentionState where
  xformersEnabled : Bool
  attentionSlicingEnabled : Bool
  deriving Repr, DecidableEq

/-- Lines 62-65: `enable_xformers` enables memory-efficient attention;
only otherwise does `enable_attention_slicing` enable slicing. -/
def applyAttentionOptions (enableAttentionSlicing enableXformers : Bool) :
    AttentionState :=
  if enableXformers then
    { xformersEnabled := true, attentionSlicingEnabled := false }
  else if enableAttentionSlicing then
    { xformersEnabled := false, attentionSlicingEnabled := true }
  else
    { xformersEnabled := false, attentionSlicingEnabled := false }

/-- The result of `prepare_pipe`: where the model came from and the
attention options applied before returning it. -/
structure PreparedPipe where
  source : PipeSource
  attention : AttentionState
  deriving Repr, DecidableEq

/-- Lines 36-60: the source-routing of `prepare_pipe`.  The cached branch
fires when the cached dict is truthy and either contains the name or the
type is `Installed Models`; the downloadable branch fires on type
`Downloadable Models`; the custom branch on a truthy custom dict and type
`Custom Models`; otherwise the `raise ValueError` at line 60 fires,
naming the model — the failure the spec's taxonomy calls
`SourceNotFound`.  A dict subscript on a name the chosen dict lacks
raises Python's `KeyError` instead; a downloadable entry whose `type` tag
is neither known value leaves `pipe` unassigned. -/
def routeModel (modelName modelType : String)
    (downloadableModelDict : List (String × DownloadableEntry))
    (customModelDict : List (String × CustomEntry))
    (cachedModelDict : List (String × CachedEntry)) :
    Except LoadError PipeSource :=
  if cachedModelDict ≠ [] ∧
      ((cachedModelDict.lookup modelName).isSome ∨
        modelType = "Installed Models") then
    match cachedModelDict.lookup modelName with
    | some info => .ok (.cached info)
    | none => .error (.keyError modelName)
  else if modelType = "Downloadable Models" then
    match downloadableModelDict.lookup modelName with
    | none => .error (.keyError modelName)
    | some choice =>
      if choice.dtype = "diffusers" then .ok (.diffusers modelName)
      else if choice.dtype = "hf-file" then .ok (.hfFile modelName)
      else .error .unboundLocalPipe
  else if customModelDict ≠ [] ∧ modelType = "Custom Models" then
    match customModelDict.lookup modelName with
    | some _ => .ok (.custom modelName)
    | none => .error (.keyError modelName)
  else
    .error (.sourceNotFound modelName)

/-- Lines 33-70: `prepare_pipe` routes to a source, then applies the
attention options to the pipeline it obtained. -/
def prepare_pipe (modelName modelType : String)
    (downloadableModelDict : List (String × DownloadableEntry))
    (customModelDict : List (String × CustomEntry))
    (cachedModelDict : List (String × CachedEntry))
    (enableAttentionSlicing : Bool) (enableXformers : Bool) :
    Except LoadError PreparedPipe :=
  (routeModel modelName modelType downloadableModelDict customModelDict
      cachedModelDict).map
    fun src =>
      { source := src
        attention :=
          applyAttentionOptions enableAttentionSlicing enableXformers }

/-- Modelled from the spec: the CacheManager of §4.5 — the diffusers
`save_pretrained` / `from_pretrained` round-trip of lines 299-300 and
86-88 is external library code.  `store` persists an assembled model
under a logical name, overwriting any previous entry for that name;
`lookup` reads the stored model back. -/
def CacheManager.store (cache : List (String × Pipe)) (name : String)
    (m : Pipe) : List (String × Pipe) :=
  (name, m) :: cache.filter fun kv => !(kv.1 == name)

/-- Modelled from the spec: CacheManager lookup, §4.5. -/
def CacheManager.lookup (cache : List (String × Pipe)) (name : String) :
    Option Pipe :=
  cache.lookup name

/-! ## Concrete inputs used by witnesses and counterexamples -/

/-- A tensor whose trailing shape dimension is 1024 (wide family). -/
def wideTensor : Tensor := { shape := [320, 1024], data := [] }

/-- A tensor whose trailing shape dimension is 768 (narrow family). -/
def narrowTensor : Tensor := { shape := [320, 768], data := [] }

/-- A wide-family checkpoint with no `global_step`. -/
def wideCkpt : RawCheckpoint :=
  { global_step := none, tensors := [(keyName, wideTensor)] }

/-- A wide-family checkpoint carrying the base-release `global_step`. -/
def baseCkpt : RawCheckpoint :=
  { global_step := some 875000, tensors := [(keyName, wideTensor)] }

/-- A checkpoint whose distinguishing tensor has another trailing
dimension. -/
def narrowCkpt : RawCheckpoint :=
  { global_step := none, tensors := [(keyName, narrowTensor)] }

/-- A checkpoint with no tensors and no metadata. -/
def emptyCkpt : RawCheckpoint := { global_step := none, tensors := [] }

/-- A sample tensor for conformant checkpoints. -/
def t0 : Tensor := { shape := [4], data := [1, 2, 3, 4] }

/-- A conformant narrow-family checkpoint: no distinguishing key and no
`global_step`, carrying every source key the three sub-model remaps
require, so the full pipeline succeeds on it. -/
def fullCkpt : RawCheckpoint :=
  { global_step := none
    tensors :=
      [("model.diffusion_model.time_embed.0.weight", t0),
       ("model.diffusion_model.time_embed.0.bias", t0),
       ("model.diffusion_model.time_embed.2.weight", t0),
       ("model.diffusion_model.time_embed.2.bias", t0),
       ("model.diffusion_model.input_blocks.0.0.weight", t0),
       ("model.diffusion_model.input_blocks.0.0.bias", t0),
       ("model.diffusion_model.out.0.weight", t0),
       ("model.diffusion_model.out.0.bias", t0),
       ("model.diffusion_model.out.2.weight", t0),
       ("model.diffusion_model.out.2.bias", t0),
       ("first_stage_model.encoder.conv_in.weight", t0),
       ("first_stage_model.decoder.conv_in.weight", t0),
       ("cond_stage_model.transformer.text_model.embeddings.token_embedding.weight",
         t0)] }

/-- The denoiser state remapped from `fullCkpt`. -/
def fullUnetState : StateDict :=
  [("time_embedding.linear_1.weight", t0),
   ("time_embedding.linear_1.bias", t0),
   ("time_embedding.linear_2.weight", t0),
   ("time_embedding.linear_2.bias", t0),
   ("conv_in.weight", t0),
   ("conv_in.bias", t0),
   ("conv_norm_out.weight", t0),
   ("conv_norm_out.bias", t0),
   ("conv_out.weight", t0),
   ("conv_out.bias", t0)]

/-- The image-codec state remapped from `fullCkpt`. -/
def fullVaeState : StateDict :=
  [("encoder.conv_in.weight", t0), ("decoder.conv_in.weight", t0)]

/-- The text-encoder state remapped from `fullCkpt`. -/
def fullTextState : StateDict :=
  [("text_model.embeddings.token_embedding.weight", t0)]

/-- The pipeline assembled from `fullCkpt` with no overrides. -/
def fullPipe : Pipe :=
  { unet_state := fullUnetState
    vae_state := fullVaeState
    text_state := fullTextState
    scheduler := mkScheduler v1Config "epsilon"
    tokenizer := "openai/clip-vit-large-patch14"
    has_feature_extractor := true }

/-- The pipeline assembled by `buildPipe` from `fullCkpt` with empty
denoiser and image-codec states supplied. -/
def textOnlyPipe : Pipe :=
  { unet_state := []
    vae_state := []
    text_state := fullTextState
    scheduler := mkScheduler v1Config "epsilon"
    tokenizer := "openai/clip-vit-large-patch14"
    has_feature_extractor := true }

/-- A config whose text-encoder family class is neither known value. -/
def unknownFamilyConfig : OriginalConfig :=
  { v1Config with
      cond_stage_target := "ldm.modules.encoders.modules.CustomEmbedder" }

/-- A sample architecture config. -/
def sampleCfg : ArchitectureConfig :=
  { sample_size := 512, upcast_attention := false }

/-- A sample schema variant. -/
def sampleVariant : SchemaVariant :=
  { family := .clip, velocity := false, baseResolution := 512 }

/-- A sample cached-model dict entry. -/
def cachedEntrySample : CachedEntry := { path := "p" }

/-- The prepared pipe for a cached hit with both attention flags set. -/
def preparedSample : PreparedPipe :=
  { source := .cached cachedEntrySample
    attention := { xformersEnabled := true, attentionSlicingEnabled := false } }

/-! ## Helper lemmas -/

theorem hasWideKey_of_some (c : RawCheckpoint) (t : Tensor)
    (hfind : c.find keyName = some t) :
    hasWideKey c = (t.shape.getLast? == some 1024) := by
  unfold hasWideKey
  rw [hfind]

theorem hasWideKey_of_none (c : RawCheckpoint)
    (hfind : c.find keyName = none) : hasWideKey c = false := by
  unfold hasWideKey
  rw [hfind]

theorem except_map_ok {ε α β : Type} (f : α → β) (e : Except ε α) (b : β)
    (h : e.map f = .ok b) : ∃ a, e = .ok a ∧ f a = b := by
  cases e with
  | error err => simp [Except.map] at h
  | ok a => exact ⟨a, rfl, by simpa [Except.map] using h⟩

theorem buildPipe_ok_fields (cfg : OriginalConfig) (ckpt : RawCheckpoint)
    (us vs : StateDict) (sched : DDIMSchedulerArgs) (pipe : Pipe)
    (h : buildPipe cfg ckpt us vs sched = .ok pipe) :
    pipe.scheduler = sched ∧ pipe.unet_state = us ∧ pipe.vae_state = vs := by
  simp only [buildPipe] at h
  split at h
  · split at h
    · exact Except.noConfusion h
    · cases h
      exact ⟨rfl, rfl, rfl⟩
  · split at h
    · split at h
      · exact Except.noConfusion h
      · cases h
        exact ⟨rfl, rfl, rfl⟩
    · exact Except.noConfusion h

theorem except_map_error {ε α β : Type} (f : α → β) (e : Except ε α)
    (err : ε) (h : e.map f = .error err) : e = .error err := by
  cases e with
  | error e' => simpa [Except.map] using h
  | ok a => simp [Except.map] at h

theorem checkComplete_error_shape (sub : String) (req : List String)
    (state : StateDict) (e : LoadError)
    (h : checkComplete sub req state = .error e) :
    ∃ k, e = .incompleteStateMapping sub k := by
  unfold checkComplete at h
  split at h
  · cases h
    exact ⟨_, rfl⟩
  · exact Except.noConfusion h

theorem selectVaeState_error_shape (ckpt : RawCheckpoint)
    (vaeFile : Option StateDict) (vaeCfg : ArchitectureConfig)
    (e : LoadError) (h : selectVaeState ckpt vaeFile vaeCfg = .error e) :
    ∃ k, e = .incompleteStateMapping "image-codec" k := by
  cases vaeFile with
  | some vf => exact checkComplete_error_shape _ _ _ _ h
  | none => exact checkComplete_error_shape _ _ _ _ h

theorem buildPipe_error_shape (cfg : OriginalConfig) (ckpt : RawCheckpoint)
    (us vs : StateDict) (sched : DDIMSchedulerArgs) (e : LoadError)
    (h : buildPipe cfg ckpt us vs sched = .error e) :
    e = .unboundLocalPipe ∨
      ∃ k, e = .incompleteStateMapping "text-encoder" k := by
  simp only [buildPipe] at h
  split at h
  · split at h
    · rename_i e' heq
      obtain rfl := Except.error.inj h
      exact Or.inr (checkComplete_error_shape _ _ _ _ heq)
    · exact Except.noConfusion h
  · split at h
    · split at h
      · rename_i e' heq
        obtain rfl := Except.error.inj h
        exact Or.inr (checkComplete_error_shape _ _ _ _ heq)
      · exact Except.noConfusion h
    · cases h
      exact Or.inl rfl

theorem load_error_not_configResolution (c : RawCheckpoint)
    (cfgPath : Option String) (i : Option Nat) (p : Option String)
    (vf : Option StateDict) :
    load_ckpt_full c cfgPath i p vf ≠ .error .configResolutionError := by
  intro hcontra
  simp only [load_ckpt_full] at hcontra
  split at hcontra
  · exact LoadError.noConfusion (Except.error.inj hcontra)
  · split at hcontra
    · rename_i e' heq
      obtain ⟨k, hk⟩ := checkComplete_error_shape _ _ _ _ heq
      rw [Except.error.inj hcontra] at hk
      exact LoadError.noConfusion hk
    · split at hcontra
      · rename_i e' heq
        obtain ⟨k, hk⟩ := selectVaeState_error_shape _ _ _ _ heq
        rw [Except.error.inj hcontra] at hk
        exact LoadError.noConfusion hk
      · rcases buildPipe_error_shape _ _ _ _ _ _
            (except_map_error _ _ _ hcontra) with h1 | ⟨k, h1⟩ <;>
          exact LoadError.noConfusion h1

/-! ## Claim theorems -/

/-- C1: without an explicit config reference, the distinguishing tensor
key present with trailing shape dimension 1024 selects the wide-family
config (resolution 768, velocity prediction); any other trailing
dimension or absence of the key selects the narrow-family config
(resolution 512, epsilon prediction); and within the wide family a
`global_step` of 875000 instead resolves to 512 and epsilon. -/
theorem detection_boundary_cases (c : RawCheckpoint) :
    (∀ t, c.find keyName = some t → t.shape.getLast? = some 1024 →
      c.global_step ≠ some 875000 →
      detectAndResolve c none =
        some (v2ConfigPath, v2Config, "v_prediction", 768,
          c.global_step == some 110000)) ∧
    (∀ t, c.find keyName = some t → t.shape.getLast? = some 1024 →
      c.global_step = some 875000 →
      detectAndResolve c none =
        some (v2ConfigPath, v2Config, "epsilon", 512, false)) ∧
    (c.find keyName = none →
      detectAndResolve c none =
        some (v1ConfigPath, v1Config, "epsilon", 512, false)) ∧
    (∀ t, c.find keyName = some t → ¬(t.shape.getLast? = some 1024) →
      detectAndResolve c none =
        some (v1ConfigPath, v1Config, "epsilon", 512, false)) := by
  refine ⟨?_, ?_, ?_, ?_⟩
  · intro t hfind htrail hgs
    have hw : hasWideKey c = true := by
      rw [hasWideKey_of_some c t hfind, htrail]
      rfl
    simp only [detectAndResolve, detectConfigPath, hw, if_true, loadConfig,
      resolveRegime, resolveRegimeFull, Option.getD_none, hgs]
    rfl
  · intro t hfind htrail hgs
    have hw : hasWideKey c = true := by
      rw [hasWideKey_of_some c t hfind, htrail]
      rfl
    simp only [detectAndResolve, detectConfigPath, hw, if_true, hgs]
    rfl
  · intro hfind
    have hw : hasWideKey c = false := hasWideKey_of_none c hfind
    simp only [detectAndResolve, detectConfigPath, hw, loadConfig,
      resolveRegime, resolveRegimeFull, Option.getD_none]
    rfl
  · intro t hfind htrail
    have hw : hasWideKey c = false := by
      rw [hasWideKey_of_some c t hfind]
      exact beq_eq_false_iff_ne.mpr htrail
    simp only [detectAndResolve, detectConfigPath, hw, loadConfig,
      resolveRegime, resolveRegimeFull, Option.getD_none]
    rfl

/-- Witness for C1 at the four boundary checkpoints. -/
theorem detection_boundary_cases_witness :
    (wideCkpt.find keyName = some wideTensor ∧
      wideTensor.shape.getLast? = some 1024 ∧
      wideCkpt.global_step ≠ some 875000 ∧
      detectAndResolve wideCkpt none =
        some (v2ConfigPath, v2Config, "v_prediction", 768, false)) ∧
    (baseCkpt.global_step = some 875000 ∧
      detectAndResolve baseCkpt none =
        some (v2ConfigPath, v2Config, "epsilon", 512, false)) ∧
    (emptyCkpt.find keyName = none ∧
      detectAndResolve emptyCkpt none =
        some (v1ConfigPath, v1Config, "epsilon", 512, false)) ∧
    (narrowCkpt.find keyName = some narrowTensor ∧
      ¬(narrowTensor.shape.getLast? = some 1024) ∧
      detectAndResolve narrowCkpt none =
        some (v1ConfigPath, v1Config, "epsilon", 512, false)) :=
  ⟨⟨rfl, rfl, by decide,
      (detection_boundary_cases wideCkpt).1 wideTensor rfl rfl (by decide)⟩,
    ⟨rfl, (detection_boundary_cases baseCkpt).2.1 wideTensor rfl rfl rfl⟩,
    ⟨rfl, (detection_boundary_cases emptyCkpt).2.2.1 rfl⟩,
    ⟨rfl, by decide,
      (detection_boundary_cases narrowCkpt).2.2.2 narrowTensor rfl
        (by decide)⟩⟩

/-- C2 counterexample: a checkpoint from which no family is determinable
(no tensors at all) is not met with a `ConfigResolutionError`: detection
silently defaults to the narrow-family config and loading proceeds past
detection with that family; it fails only later, at the
remap-completeness hard stop of the denoiser — a different failure
mode. -/
theorem detection_never_fails_counterexample :
    detectAndResolve emptyCkpt none =
      some (v1ConfigPath, v1Config, "epsilon", 512, false) ∧
    load_ckpt_full emptyCkpt none none none none =
      .error (.incompleteStateMapping "denoiser"
        "time_embedding.linear_1.weight") ∧
    (Except.error
        (LoadError.incompleteStateMapping "denoiser"
          "time_embedding.linear_1.weight") :
        Except LoadError (Pipe × String)) ≠
      .error .configResolutionError :=
  ⟨rfl, rfl, fun h => LoadError.noConfusion (Except.error.inj h)⟩

/-- C2 (amended): when the distinguishing key is absent detection
silently defaults to the narrow-family config (512, epsilon) instead of
failing, and no load ever fails with a `ConfigResolutionError` — that
error does not exist in the code (later stages can still fail, but with
other failure modes: missing config key, remap incompleteness, unbound
pipe). -/
theorem detection_defaults_to_narrow (c : RawCheckpoint)
    (h : c.find keyName = none) :
    detectAndResolve c none =
      some (v1ConfigPath, v1Config, "epsilon", 512, false) ∧
    ∀ cfgPath i p vf,
      load_ckpt_full c cfgPath i p vf ≠ .error .configResolutionError := by
  constructor
  · have hw : hasWideKey c = false := hasWideKey_of_none c h
    simp only [detectAndResolve, detectConfigPath, hw, loadConfig,
      resolveRegime, resolveRegimeFull, Option.getD_none]
    rfl
  · intro cfgPath i p vf
    exact load_error_not_configResolution c cfgPath i p vf

/-- Witness for C2 (amended) at the empty checkpoint. -/
theorem detection_defaults_to_narrow_witness :
    emptyCkpt.find keyName = none ∧
    detectAndResolve emptyCkpt none =
      some (v1ConfigPath, v1Config, "epsilon", 512, false) :=
  ⟨rfl, (detection_defaults_to_narrow emptyCkpt rfl).1⟩

/-- C3: checkpoint remapping is deterministic and pure — for a fixed
RawCheckpoint, ArchitectureConfig set, and SchemaVariant, two runs of the
remapper produce identical RemappedState (the remapper is a function of
exactly these inputs; the embedding has no other state to read). -/
theorem remapper_deterministic (c₁ c₂ : RawCheckpoint)
    (u₁ u₂ v₁ v₂ t₁ t₂ : ArchitectureConfig) (s₁ s₂ : SchemaVariant)
    (hc : c₁ = c₂) (hu : u₁ = u₂) (hv : v₁ = v₂) (ht : t₁ = t₂)
    (hs : s₁ = s₂) :
    checkpointRemapper c₁ u₁ v₁ t₁ s₁ = checkpointRemapper c₂ u₂ v₂ t₂ s₂ := by
  rw [hc, hu, hv, ht, hs]

/-- Witness for C3 at a concrete conformant checkpoint and variant. -/
theorem remapper_deterministic_witness :
    fullCkpt = fullCkpt ∧
    checkpointRemapper fullCkpt sampleCfg sampleCfg sampleCfg sampleVariant =
      checkpointRemapper fullCkpt sampleCfg sampleCfg sampleCfg
        sampleVariant :=
  ⟨rfl,
    remapper_deterministic fullCkpt fullCkpt sampleCfg sampleCfg sampleCfg
      sampleCfg sampleCfg sampleCfg sampleVariant sampleVariant rfl rfl rfl
      rfl rfl⟩

/-- C4: cache round-trip — storing an assembled model under a logical
name and then looking the name up returns a model equal to the one
stored. -/
theorem cache_round_trip (cache : List (String × Pipe)) (name : String)
    (m : Pipe) :
    CacheManager.lookup (CacheManager.store cache name m) name = some m := by
  simp [CacheManager.lookup, CacheManager.store, List.lookup]

/-- C5: for every checkpoint and structural config source, the scheduler
attached to the assembled pipeline always uses the scaled-linear schedule
shape, sampling offset 1, and no clipping; only the variance bounds,
timestep count, and prediction target vary, and the bounds and count are
read verbatim from the loaded config. -/
theorem scheduler_invariants (c : RawCheckpoint) (cfgPath : Option String)
    (i : Option Nat) (p : Option String) (vf : Option StateDict)
    (cfg : OriginalConfig) (pr : Pipe × String)
    (hcfg : loadConfig (detectConfigPath c cfgPath).1 = some cfg)
    (h : load_ckpt_full c cfgPath i p vf = .ok pr) :
    pr.1.scheduler.beta_schedule = "scaled_linear" ∧
    pr.1.scheduler.steps_offset = 1 ∧
    pr.1.scheduler.clip_sample = false ∧
    pr.1.scheduler.set_alpha_to_one = false ∧
    pr.1.scheduler.beta_start = cfg.linear_start ∧
    pr.1.scheduler.beta_end = cfg.linear_end ∧
    pr.1.scheduler.num_train_timesteps = cfg.timesteps ∧
    pr.1.scheduler.prediction_type = pr.2 := by
  simp only [load_ckpt_full, hcfg] at h
  split at h
  · exact Except.noConfusion h
  · split at h
    · exact Except.noConfusion h
    · obtain ⟨pipe', he, hf⟩ := except_map_ok _ _ _ h
      obtain ⟨hsched, -, -⟩ := buildPipe_ok_fields _ _ _ _ _ _ he
      subst hf
      simp [hsched, mkScheduler]

/-- Witness for C5 at a conformant narrow-family checkpoint. -/
theorem scheduler_invariants_witness :
    loadConfig (detectConfigPath fullCkpt none).1 = some v1Config ∧
    load_ckpt_full fullCkpt none none none none =
      .ok (fullPipe, "epsilon") ∧
    (fullPipe.scheduler.beta_schedule = "scaled_linear" ∧
      fullPipe.scheduler.steps_offset = 1 ∧
      fullPipe.scheduler.clip_sample = false ∧
      fullPipe.scheduler.set_alpha_to_one = false ∧
      fullPipe.scheduler.beta_start = v1Config.linear_start ∧
      fullPipe.scheduler.beta_end = v1Config.linear_end ∧
      fullPipe.scheduler.num_train_timesteps = v1Config.timesteps ∧
      fullPipe.scheduler.prediction_type = "epsilon") :=
  ⟨rfl, rfl,
    scheduler_invariants fullCkpt none none none none v1Config
      (fullPipe, "epsilon") rfl rfl⟩

/-- C6: when a separately-sourced image-codec checkpoint is supplied, the
image-codec state is the remap of that (filtered) file alone — in
particular it does not depend on the primary checkpoint — and when none
is supplied it is remapped from the primary checkpoint; the state handed
to assembly is the one loaded into the model. -/
theorem vae_source_selection (c c' : RawCheckpoint) (vf : StateDict)
    (acfg : ArchitectureConfig) (cfg : OriginalConfig)
    (ckpt : RawCheckpoint) (us vs : StateDict) (sched : DDIMSchedulerArgs)
    (pipe : Pipe) :
    selectVaeState c (some vf) acfg =
        convert_ldm_vae_checkpoint_from_file (vaeFilter vf) acfg ∧
    selectVaeState c (some vf) acfg = selectVaeState c' (some vf) acfg ∧
    selectVaeState c none acfg =
        convert_ldm_vae_checkpoint c.tensors acfg ∧
    (buildPipe cfg ckpt us vs sched = .ok pipe → pipe.vae_state = vs) :=
  ⟨rfl, rfl, rfl, fun h => (buildPipe_ok_fields cfg ckpt us vs sched pipe h).2.2⟩

/-- Witness for C6: a successful assembly receives the selected state. -/
theorem vae_source_selection_witness :
    buildPipe v1Config fullCkpt [] [] (mkScheduler v1Config "epsilon") =
      .ok textOnlyPipe ∧
    textOnlyPipe.vae_state = [] :=
  ⟨rfl,
    (vae_source_selection emptyCkpt emptyCkpt [] sampleCfg v1Config fullCkpt
      [] [] (mkScheduler v1Config "epsilon") textOnlyPipe).2.2.2 rfl⟩

/-- C7 counterexample: a config whose text-encoder family class is
neither known value makes assembly fail with the unbound-local failure of
the never-assigned `pipe` variable, not with a dedicated
`UnsupportedTextEncoderFamily` error. -/
theorem unknown_family_counterexample :
    buildPipe unknownFamilyConfig emptyCkpt [] []
        (mkScheduler unknownFamilyConfig "epsilon") =
      .error .unboundLocalPipe ∧
    (Except.error LoadError.unboundLocalPipe : Except LoadError Pipe) ≠
      .error .unsupportedTextEncoderFamily :=
  ⟨rfl, fun h => LoadError.noConfusion (Except.error.inj h)⟩

/-- C7 (amended): for every config whose declared text-encoder family
class name is neither known value, assembly fails — but with the
unbound-variable failure (no branch assigns the pipeline), not with a
dedicated `UnsupportedTextEncoderFamily` error. -/
theorem unknown_family_unbound_pipe (cfg : OriginalConfig)
    (ckpt : RawCheckpoint) (us vs : StateDict) (sched : DDIMSchedulerArgs)
    (h₁ : modelTypeOf cfg ≠ "FrozenOpenCLIPEmbedder")
    (h₂ : modelTypeOf cfg ≠ "FrozenCLIPEmbedder") :
    buildPipe cfg ckpt us vs sched = .error .unboundLocalPipe := by
  simp only [buildPipe]
  rw [if_neg h₁, if_neg h₂]

/-- Witness for C7 (amended) at a concrete unknown family class. -/
theorem unknown_family_unbound_pipe_witness :
    modelTypeOf unknownFamilyConfig ≠ "FrozenOpenCLIPEmbedder" ∧
    modelTypeOf unknownFamilyConfig ≠ "FrozenCLIPEmbedder" ∧
    buildPipe unknownFamilyConfig emptyCkpt [] []
        (mkScheduler unknownFamilyConfig "epsilon") =
      .error .unboundLocalPipe :=
  ⟨by decide, by decide,
    unknown_family_unbound_pipe unknownFamilyConfig emptyCkpt [] []
      (mkScheduler unknownFamilyConfig "epsilon") (by decide) (by decide)⟩

/-- C8 counterexample: a request whose name and type match no entry in
any source — type `Downloadable Models` with every dict empty — fails
with the key-lookup error of `downloadable_model_dict[model_name]`, not
with the model-naming `ValueError` of line 60 (the spec's
`SourceNotFound`). -/
theorem missing_downloadable_counterexample :
    prepare_pipe "missing-model" "Downloadable Models" [] [] [] false
        false =
      .error (.keyError "missing-model") ∧
    (Except.error (LoadError.keyError "missing-model") :
        Except LoadError PreparedPipe) ≠
      .error (.sourceNotFound "missing-model") :=
  ⟨rfl, fun h => LoadError.noConfusion (Except.error.inj h)⟩

/-- C8 (amended): the model-naming error of line 60 (the spec's
`SourceNotFound`) fires exactly when the request matches none of the
three source-type branches; a request routed into the downloadable or
custom branch (or the Installed-Models cached branch) whose name the
chosen dict lacks fails with a key-lookup error instead. -/
theorem unmatched_type_value_error (modelName modelType : String)
    (dl : List (String × DownloadableEntry))
    (cu : List (String × CustomEntry)) (ca : List (String × CachedEntry))
    (sl xf : Bool)
    (h₁ : ¬(ca ≠ [] ∧ ((ca.lookup modelName).isSome ∨
        modelType = "Installed Models")))
    (h₂ : modelType ≠ "Downloadable Models")
    (h₃ : ¬(cu ≠ [] ∧ modelType = "Custom Models")) :
    prepare_pipe modelName modelType dl cu ca sl xf =
      .error (.sourceNotFound modelName) := by
  unfold prepare_pipe routeModel
  rw [if_neg h₁, if_neg h₂, if_neg h₃]
  rfl

/-- Witness for C8 (amended) at a request matching no branch. -/
theorem unmatched_type_value_error_witness :
    ¬(([] : List (String × CachedEntry)) ≠ [] ∧
        ((([] : List (String × CachedEntry)).lookup "m").isSome ∨
          "Unknown Type" = "Installed Models")) ∧
    "Unknown Type" ≠ "Downloadable Models" ∧
    ¬(([] : List (String × CustomEntry)) ≠ [] ∧
        "Unknown Type" = "Custom Models") ∧
    prepare_pipe "m" "Unknown Type" [] [] [] false false =
      .error (.sourceNotFound "m") :=
  ⟨by decide, by decide, by decide,
    unmatched_type_value_error "m" "Unknown Type" [] [] [] false false
      (by decide) (by decide) (by decide)⟩

/-- C9: the `prediction_type` and `image_size` parameters of the loader
have no effect on its result — they are unconditionally reassigned to
`None` before first use, so any two argument values give the same
pipeline and prediction-type string. -/
theorem hyperparameter_args_ignored (c : RawCheckpoint)
    (cfgPath : Option String) (i₁ i₂ : Option Nat)
    (p₁ p₂ : Option String) (vf : Option StateDict) :
    load_ckpt_full c cfgPath i₁ p₁ vf = load_ckpt_full c cfgPath i₂ p₂ vf :=
  rfl

/-- C10: with `enable_xformers` set, only xformers memory-efficient
attention is enabled on the returned pipeline, never attention slicing,
whatever `enable_attention_slicing` is. -/
theorem xformers_precedence (modelName modelType : String)
    (dl : List (String × DownloadableEntry))
    (cu : List (String × CustomEntry)) (ca : List (String × CachedEntry))
    (sl : Bool) (r : PreparedPipe)
    (h : prepare_pipe modelName modelType dl cu ca sl true = .ok r) :
    r.attention.xformersEnabled = true ∧
    r.attention.attentionSlicingEnabled = false := by
  obtain ⟨src, -, hr⟩ := except_map_ok _ _ _ h
  rw [← hr]
  simp [applyAttentionOptions]

/-- Witness for C10 at a cached hit with both flags set. -/
theorem xformers_precedence_witness :
    prepare_pipe "x" "Installed Models" [] [] [("x", cachedEntrySample)]
        true true =
      .ok preparedSample ∧
    preparedSample.attention.xformersEnabled = true ∧
    preparedSample.attention.attentionSlicingEnabled = false :=
  ⟨rfl,
    xformers_precedence "x" "Installed Models" [] []
      [("x", cachedEntrySample)] true preparedSample rfl⟩

end SimplestStable
